import Mathlib

/-!
Verification of the reveal state machine and content-visibility controller of
the content-warning web component (src/content-warning.js, first variant).

The embedding is a pure state-passing model of the widget instance: the host
element attribute list, the internal flags (isRendered, revealed, isInline),
the cached shadow-DOM references, the hiding attributes on the content
wrapper, the composed button label, the announcement-region children, the
slotted light-DOM content, and the list of dispatched events. Host DOM
primitives (setAttribute, removeAttribute, attributeChangedCallback firing,
cloneNode) are modelled with their standard semantics; all widget logic is
translated line by line from the source.
-/

namespace ContentWarning

/-- A DOM node tree: text node or element with a tag and children.
Used to model light-DOM content projected into the slot. -/
inductive Node where
  | text (s : String) : Node
  | elem (tag : String) (children : List Node) : Node
deriving Repr

/-- The composed button label: three fragments (label-prefix span, type span,
optional suffix span), as built by updateWarningMessage and render. -/
structure LabelParts where
  prefixText : String
  typeText : String
  suffixText : Option String
deriving DecidableEq, Repr

/-- A dispatched CustomEvent, as constructed in reveal:
name, detail.type, bubbles, composed. -/
structure RevealEvent where
  name : String
  detailType : Option String
  bubbles : Bool
  composed : Bool
deriving DecidableEq, Repr

/-- The three hiding attributes the widget manipulates on the shadow
content wrapper: hidden, inert, aria-hidden. -/
structure Wrapper where
  hidden : Bool
  inert : Bool
  ariaHidden : Bool
deriving DecidableEq, Repr

/-- Element attribute list (name, value); DOM attributes are unique per name. -/
def AttrList := List (String × String)

/-- DOM getAttribute: the value of the first binding of the name, or none. -/
def getA (attrs : AttrList) (name : String) : Option String :=
  match attrs with
  | [] => none
  | p :: rest => if p.1 = name then some p.2 else getA rest name

/-- DOM setAttribute on the raw list: replace the existing binding in place,
or append a new one. -/
def setA (attrs : AttrList) (name value : String) : AttrList :=
  match attrs with
  | [] => [(name, value)]
  | p :: rest =>
      if p.1 = name then (p.1, value) :: rest else p :: setA rest name value

/-- DOM removeAttribute on the raw list. -/
def removeA (attrs : AttrList) (name : String) : AttrList :=
  match attrs with
  | [] => []
  | p :: rest =>
      if p.1 = name then removeA rest name else p :: removeA rest name

/-- DOM hasAttribute. -/
def hasA (attrs : AttrList) (name : String) : Bool :=
  (getA attrs name).isSome

/-- The full state of one widget instance. -/
structure CWState where
  /-- attributes on the host content-warning element -/
  host : AttrList
  /-- internals.isRendered -/
  isRendered : Bool
  /-- internals.revealed -/
  revealed : Bool
  /-- internals.isInline -/
  isInline : Bool
  /-- refs.overlay is non-null (overlay node present in the shadow DOM,
  with its click listener) -/
  overlayRef : Bool
  /-- refs.button is non-null -/
  buttonRef : Bool
  /-- refs.wrapper is non-null -/
  wrapperRef : Bool
  /-- refs.announcement is non-null -/
  announcementRef : Bool
  /-- refs.slot is non-null -/
  slotRef : Bool
  /-- hiding attributes currently on the content wrapper -/
  wrapper : Wrapper
  /-- the three label fragments currently inside the button (none before
  the first render) -/
  buttonLabel : Option LabelParts
  /-- children of the sr-announcement region -/
  announcement : List Node
  /-- light-DOM elements assigned to the slot -/
  slotted : List Node
  /-- events dispatched on the host so far -/
  events : List RevealEvent
  /-- plain own property shadowing the type accessor (set pre-upgrade) -/
  ownType : Option String
  /-- plain own property shadowing the labelPrefix accessor -/
  ownLabelPrefix : Option String
  /-- plain own property shadowing the labelSuffix accessor -/
  ownLabelSuffix : Option String

/-- static get observedAttributes() -/
def observedAttributes : List String :=
  ["type", "label-prefix", "label-suffix", "blur"]

/-- JavaScript defaulting with the logical-or operator: a || d falls back to
d when a is null, undefined or the empty string (all falsy). -/
def jsOr (v : Option String) (d : String) : String :=
  match v with
  | none => d
  | some s => if s = "" then d else s

/-- The label fragments computed by updateWarningMessage:
prefix = labelPrefix || default, types = type || default,
suffix = labelSuffix !== null && labelSuffix !== "false"
          ? labelSuffix || default : null. -/
def composeUpdate (lp ty ls : Option String) : LabelParts :=
  { prefixText := jsOr lp "Content Warning"
    typeText := jsOr ty "content"
    suffixText :=
      if ls ≠ none ∧ ls ≠ some "false" then some (jsOr ls "Click to reveal")
      else none }

/-- The label fragments computed by render:
showSuffix = suffix !== "false"; suffixText = suffix || default. -/
def composeRender (lp ty ls : Option String) : LabelParts :=
  { prefixText := jsOr lp "Content Warning"
    typeText := jsOr ty "content"
    suffixText :=
      if ls ≠ some "false" then some (jsOr ls "Click to reveal") else none }

/-- updateWarningMessage: rebuilds the three label spans inside the button
from the current attribute values; returns unchanged when the button
reference is null. -/
def updateWarningMessage (s : CWState) : CWState :=
  if s.buttonRef then
    { s with buttonLabel := some (composeUpdate
        (getA s.host "label-prefix") (getA s.host "type")
        (getA s.host "label-suffix")) }
  else s

/-- updateContentHiding: removes all three hiding attributes from the
wrapper, then applies aria-hidden in blur mode, or hidden and inert in
structural mode; returns unchanged when the wrapper reference is null. -/
def updateContentHiding (s : CWState) : CWState :=
  if s.wrapperRef then
    if hasA s.host "blur" then
      { s with wrapper := ⟨false, false, true⟩ }
    else
      { s with wrapper := ⟨true, true, false⟩ }
  else s

/-- attributeChangedCallback(name, oldValue, newValue): returns early when
old and new are equal; otherwise re-derives the warning message (for type
and the two label attributes) or the content hiding (for blur), each only
while rendered and not yet revealed. -/
def attributeChangedCallback (s : CWState) (name : String)
    (oldValue newValue : Option String) : CWState :=
  if oldValue = newValue then s
  else if name = "type" ∨ name = "label-prefix" ∨ name = "label-suffix" then
    if s.isRendered ∧ ¬ s.revealed then updateWarningMessage s else s
  else if name = "blur" then
    if s.isRendered ∧ ¬ s.revealed then updateContentHiding s else s
  else s

/-- this.setAttribute(name, value) on the host: updates the attribute list
and, for an observed attribute, fires attributeChangedCallback with the old
and new values (the callback fires even when the value is unchanged; the
callback itself guards on equality). -/
def hostSetAttribute (s : CWState) (name value : String) : CWState :=
  let old := getA s.host name
  let s1 := { s with host := setA s.host name value }
  if observedAttributes.contains name then
    attributeChangedCallback s1 name old (some value)
  else s1

/-- this.removeAttribute(name) on the host: removes the attribute and, when
it was present and observed, fires attributeChangedCallback with new = null.
Removing an absent attribute fires no callback. -/
def hostRemoveAttribute (s : CWState) (name : String) : CWState :=
  match getA s.host name with
  | none => s
  | some old =>
      let s1 := { s with host := removeA s.host name }
      if observedAttributes.contains name then
        attributeChangedCallback s1 name (some old) none
      else s1

mutual
/-- DOM cloneNode(true): a structural deep copy of a node, preserving the
tag and recursively copying every child. -/
def cloneNode : Node → Node
  | .text s => .text s
  | .elem t cs => .elem t (cloneNodes cs)

/-- Deep copies of a list of nodes (the children of an element, or the
elements assigned to the slot). -/
def cloneNodes : List Node → List Node
  | [] => []
  | c :: rest => cloneNode c :: cloneNodes rest
end

/-- slot.assignedElements({ flatten: true }): the elements assigned to the
slot. Unlike assignedNodes, this returns element nodes only, so bare text
nodes among the slotted content are excluded. -/
def assignedElements : List Node → List Node
  | [] => []
  | Node.text _ :: rest => assignedElements rest
  | Node.elem t cs :: rest => Node.elem t cs :: assignedElements rest

/-- announceReveal: clears the announcement region, then appends a deep
clone of every element assigned to the slot (text nodes are not copied,
because the source collects assignedElements); returns unchanged when the
announcement or slot reference is null. -/
def announceReveal (s : CWState) : CWState :=
  if s.announcementRef ∧ s.slotRef then
    { s with announcement := cloneNodes (assignedElements s.slotted) }
  else s

/-- reveal: sets revealed, strips the three hiding attributes from the
wrapper, announces to screen readers, removes the overlay (nulling the
overlay and button references), sets the revealed and role attributes on
the host, and dispatches the bubbling composed
content-warning:revealed event carrying detail.type = this.type. -/
def reveal (s : CWState) : CWState :=
  let s1 := { s with revealed := true }
  let s2 :=
    if s1.wrapperRef then { s1 with wrapper := ⟨false, false, false⟩ } else s1
  let s3 := announceReveal s2
  let s4 :=
    if s3.overlayRef then { s3 with overlayRef := false, buttonRef := false }
    else s3
  let s5 := hostSetAttribute s4 "revealed" ""
  let s6 := hostSetAttribute s5 "role" "alert"
  { s6 with events := s6.events ++
      [{ name := "content-warning:revealed"
         detailType := getA s6.host "type"
         bubbles := true
         composed := true }] }

/-- handleClick: reveals the content unless it is already revealed. -/
def handleClick (s : CWState) : CWState :=
  if s.revealed then s else reveal s

/-- render: rebuilds the whole shadow DOM (overlay with the labelled button,
content wrapper, empty sr-announcement region), re-caches every reference,
registers the click listener on the overlay, applies the initial content
hiding, and marks the instance rendered. The freshly built wrapper carries
no hiding attributes until updateContentHiding runs. -/
def render (s : CWState) : CWState :=
  let s1 :=
    { s with
      buttonLabel := some (composeRender
        (getA s.host "label-prefix") (getA s.host "type")
        (getA s.host "label-suffix"))
      overlayRef := true
      buttonRef := true
      wrapperRef := true
      announcementRef := true
      slotRef := true
      wrapper := ⟨false, false, false⟩
      announcement := [] }
  let s2 := updateContentHiding s1
  { s2 with isRendered := true }

/-- The three configuration keys bridged between properties and attributes. -/
inductive ConfigKey where
  | type
  | labelPrefix
  | labelSuffix
deriving DecidableEq, Repr

/-- The attribute name backing each configuration property. -/
def attrName : ConfigKey → String
  | .type => "type"
  | .labelPrefix => "label-prefix"
  | .labelSuffix => "label-suffix"

/-- The plain own property currently shadowing the accessor for a key. -/
def ownProp : ConfigKey → CWState → Option String
  | .type, s => s.ownType
  | .labelPrefix, s => s.ownLabelPrefix
  | .labelSuffix, s => s.ownLabelSuffix

/-- delete this[prop]: removes the shadowing own property. -/
def clearOwn : ConfigKey → CWState → CWState
  | .type, s => { s with ownType := none }
  | .labelPrefix, s => { s with ownLabelPrefix := none }
  | .labelSuffix, s => { s with ownLabelSuffix := none }

/-- Property getter: returns getAttribute of the backing attribute. -/
def propGet (k : ConfigKey) (s : CWState) : Option String :=
  getA s.host (attrName k)

/-- Property setter: removeAttribute when the value is null or undefined
(modelled as none), otherwise setAttribute with the string value. -/
def propSet (k : ConfigKey) (v : Option String) (s : CWState) : CWState :=
  match v with
  | none => hostRemoveAttribute s (attrName k)
  | some x => hostSetAttribute s (attrName k) x

/-- upgradeProperty(prop): when a plain own property shadows the accessor,
reads its value, deletes it, and re-assigns the value through the accessor;
otherwise does nothing. -/
def upgradeProperty (k : ConfigKey) (s : CWState) : CWState :=
  match ownProp k s with
  | some v => propSet k (some v) (clearOwn k s)
  | none => s

/-- The body of connectedCallback (run inside requestAnimationFrame):
upgrades the three bridged properties, captures isInline from the inline
attribute, and renders. -/
def connectedCallback (s : CWState) : CWState :=
  let s1 := upgradeProperty .type s
  let s2 := upgradeProperty .labelPrefix s1
  let s3 := upgradeProperty .labelSuffix s2
  let s4 := { s3 with isInline := hasA s3.host "inline" }
  render s4

/-- A freshly constructed instance: the constructor initialises the
internals to not rendered, not revealed, not inline, and every cached
reference to null; the host carries the author-written attributes and the
light DOM carries the slotted content. -/
def initialState (hostAttrs : AttrList) (slotted : List Node) : CWState :=
  { host := hostAttrs
    isRendered := false
    revealed := false
    isInline := false
    overlayRef := false
    buttonRef := false
    wrapperRef := false
    announcementRef := false
    slotRef := false
    wrapper := ⟨false, false, false⟩
    buttonLabel := none
    announcement := []
    slotted := slotted
    events := []
    ownType := none
    ownLabelPrefix := none
    ownLabelSuffix := none }

/-- The external operations that can reach a widget instance within one
attached lifetime: host attribute mutation (any name), property assignment
through the bridge, a click on the overlay (the only listener render
registers), and a raw key event (the source registers no keydown listener;
the prompt control is a dedicated shadow button, not the host itself). -/
inductive Op where
  | setAttr (name value : String)
  | removeAttr (name : String)
  | setProp (k : ConfigKey) (v : Option String)
  | click
  | key (k : String)

/-- One external operation applied to the instance. A click runs the
registered handler only while the overlay (the listener target) exists;
key events trigger no widget code at all. -/
def step (s : CWState) : Op → CWState
  | .setAttr n v => hostSetAttribute s n v
  | .removeAttr n => hostRemoveAttribute s n
  | .setProp k v => propSet k v s
  | .click => if s.overlayRef then handleClick s else s
  | .key _ => s

/-- A finite sequence of external operations. -/
def run (s : CWState) (ops : List Op) : CWState :=
  ops.foldl step s

/-- The §4.3 hiding-attribute table: the attribute set the content wrapper
must carry for each (revealed, blur-mode) pair. -/
def hidingTable (revealed blurMode : Bool) : Wrapper :=
  if revealed then ⟨false, false, false⟩
  else if blurMode then ⟨false, false, true⟩
  else ⟨true, true, false⟩


/-- The CustomEvent dispatched at the Hidden to Revealed transition. -/
def revealedEvent (t : Option String) : RevealEvent :=
  { name := "content-warning:revealed"
    detailType := t
    bubbles := true
    composed := true }

/-- The invariant holding for every state reachable from the initial render
within one attached lifetime: the instance is rendered, the wrapper,
announcement and slot references are cached, the wrapper carries exactly the
hiding-attribute set of the table for the current (revealed, blur) pair, no
event and no announcement content exists before reveal, and exactly one
event exists after reveal. -/
def Inv (s : CWState) : Prop :=
  s.isRendered = true ∧ s.wrapperRef = true ∧ s.announcementRef = true ∧
  s.slotRef = true ∧
  s.wrapper = hidingTable s.revealed (hasA s.host "blur") ∧
  (s.revealed = false → s.events = [] ∧ s.announcement = []) ∧
  (s.revealed = true → s.events.length = 1)

/-- The composed-fragment formula exactly as the specification states it,
with nullish (??) defaulting: prefixText = prefix ?? default,
typeText = type ?? default, suffixText = null iff suffix is the literal
string false, otherwise suffix ?? default. Stated from the wording of the
spec so it can be compared against the two formulas found in the source
(composeUpdate and composeRender). -/
def composeSpecFormula (lp ty ls : Option String) : LabelParts :=
  { prefixText := lp.getD "Content Warning"
    typeText := ty.getD "content"
    suffixText :=
      if ls = some "false" then none else some (ls.getD "Click to reveal") }

/-! Basic lemmas about the embedding: attribute-list algebra, cloning is the
structural identity on pure trees, and which state fields each internal
operation leaves untouched. -/

theorem getA_setA_self (a : AttrList) (n v : String) :
    getA (setA a n v) n = some v := by
  induction a with
  | nil => simp [getA, setA]
  | cons p rest ih =>
      by_cases h : p.1 = n <;> simp [getA, setA, h, ih]

theorem getA_setA_ne (a : AttrList) (n v m : String) (h : m ≠ n) :
    getA (setA a n v) m = getA a m := by
  induction a with
  | nil => simp [getA, setA, Ne.symm h]
  | cons p rest ih =>
      by_cases h1 : p.1 = n
      · simp [getA, setA, h1, Ne.symm h]
      · simp [getA, setA, h1, ih]

theorem getA_removeA_self (a : AttrList) (n : String) :
    getA (removeA a n) n = none := by
  induction a with
  | nil => simp [getA, removeA]
  | cons p rest ih =>
      by_cases h : p.1 = n <;> simp [getA, removeA, h, ih]

theorem getA_removeA_ne (a : AttrList) (n m : String) (h : m ≠ n) :
    getA (removeA a n) m = getA a m := by
  induction a with
  | nil => simp [getA, removeA]
  | cons p rest ih =>
      by_cases h1 : p.1 = n
      · simp [getA, removeA, h1, Ne.symm h, ih]
      · simp [getA, removeA, h1, ih]

theorem removeA_of_absent (a : AttrList) (n : String)
    (h : getA a n = none) : removeA a n = a := by
  induction a with
  | nil => rfl
  | cons p rest ih =>
      by_cases h1 : p.1 = n
      · simp [getA, h1] at h
      · simp [getA, h1] at h
        simp [removeA, h1, ih h]

mutual
theorem cloneNode_eq : ∀ n : Node, cloneNode n = n
  | .text s => by rw [cloneNode]
  | .elem t cs => by rw [cloneNode, cloneNodes_eq cs]
theorem cloneNodes_eq : ∀ l : List Node, cloneNodes l = l
  | [] => by rw [cloneNodes]
  | c :: rest => by rw [cloneNodes, cloneNode_eq c, cloneNodes_eq rest]
end

@[simp] theorem updateWarningMessage_host (s : CWState) :
    (updateWarningMessage s).host = s.host := by
  unfold updateWarningMessage; (repeat' split) <;> rfl

@[simp] theorem updateWarningMessage_isRendered (s : CWState) :
    (updateWarningMessage s).isRendered = s.isRendered := by
  unfold updateWarningMessage; (repeat' split) <;> rfl

@[simp] theorem updateWarningMessage_revealed (s : CWState) :
    (updateWarningMessage s).revealed = s.revealed := by
  unfold updateWarningMessage; (repeat' split) <;> rfl

@[simp] theorem updateWarningMessage_isInline (s : CWState) :
    (updateWarningMessage s).isInline = s.isInline := by
  unfold updateWarningMessage; (repeat' split) <;> rfl

@[simp] theorem updateWarningMessage_overlayRef (s : CWState) :
    (updateWarningMessage s).overlayRef = s.overlayRef := by
  unfold updateWarningMessage; (repeat' split) <;> rfl

@[simp] theorem updateWarningMessage_buttonRef (s : CWState) :
    (updateWarningMessage s).buttonRef = s.buttonRef := by
  unfold updateWarningMessage; (repeat' split) <;> rfl

@[simp] theorem updateWarningMessage_wrapperRef (s : CWState) :
    (updateWarningMessage s).wrapperRef = s.wrapperRef := by
  unfold updateWarningMessage; (repeat' split) <;> rfl

@[simp] theorem updateWarningMessage_announcementRef (s : CWState) :
    (updateWarningMessage s).announcementRef = s.announcementRef := by
  unfold updateWarningMessage; (repeat' split) <;> rfl

@[simp] theorem updateWarningMessage_slotRef (s : CWState) :
    (updateWarningMessage s).slotRef = s.slotRef := by
  unfold updateWarningMessage; (repeat' split) <;> rfl

@[simp] theorem updateWarningMessage_wrapper (s : CWState) :
    (updateWarningMessage s).wrapper = s.wrapper := by
  unfold updateWarningMessage; (repeat' split) <;> rfl

@[simp] theorem updateWarningMessage_announcement (s : CWState) :
    (updateWarningMessage s).announcement = s.announcement := by
  unfold updateWarningMessage; (repeat' split) <;> rfl

@[simp] theorem updateWarningMessage_slotted (s : CWState) :
    (updateWarningMessage s).slotted = s.slotted := by
  unfold updateWarningMessage; (repeat' split) <;> rfl

@[simp] theorem updateWarningMessage_events (s : CWState) :
    (updateWarningMessage s).events = s.events := by
  unfold updateWarningMessage; (repeat' split) <;> rfl

@[simp] theorem updateWarningMessage_ownType (s : CWState) :
    (updateWarningMessage s).ownType = s.ownType := by
  unfold updateWarningMessage; (repeat' split) <;> rfl

@[simp] theorem updateWarningMessage_ownLabelPrefix (s : CWState) :
    (updateWarningMessage s).ownLabelPrefix = s.ownLabelPrefix := by
  unfold updateWarningMessage; (repeat' split) <;> rfl

@[simp] theorem updateWarningMessage_ownLabelSuffix (s : CWState) :
    (updateWarningMessage s).ownLabelSuffix = s.ownLabelSuffix := by
  unfold updateWarningMessage; (repeat' split) <;> rfl

@[simp] theorem updateContentHiding_host (s : CWState) :
    (updateContentHiding s).host = s.host := by
  unfold updateContentHiding; (repeat' split) <;> rfl

@[simp] theorem updateContentHiding_isRendered (s : CWState) :
    (updateContentHiding s).isRendered = s.isRendered := by
  unfold updateContentHiding; (repeat' split) <;> rfl

@[simp] theorem updateContentHiding_revealed (s : CWState) :
    (updateContentHiding s).revealed = s.revealed := by
  unfold updateContentHiding; (repeat' split) <;> rfl

@[simp] theorem updateContentHiding_isInline (s : CWState) :
    (updateContentHiding s).isInline = s.isInline := by
  unfold updateContentHiding; (repeat' split) <;> rfl

@[simp] theorem updateContentHiding_overlayRef (s : CWState) :
    (updateContentHiding s).overlayRef = s.overlayRef := by
  unfold updateContentHiding; (repeat' split) <;> rfl

@[simp] theorem updateContentHiding_buttonRef (s : CWState) :
    (updateContentHiding s).buttonRef = s.buttonRef := by
  unfold updateContentHiding; (repeat' split) <;> rfl

@[simp] theorem updateContentHiding_wrapperRef (s : CWState) :
    (updateContentHiding s).wrapperRef = s.wrapperRef := by
  unfold updateContentHiding; (repeat' split) <;> rfl

@[simp] theorem updateContentHiding_announcementRef (s : CWState) :
    (updateContentHiding s).announcementRef = s.announcementRef := by
  unfold updateContentHiding; (repeat' split) <;> rfl

@[simp] theorem updateContentHiding_slotRef (s : CWState) :
    (updateContentHiding s).slotRef = s.slotRef := by
  unfold updateContentHiding; (repeat' split) <;> rfl

@[simp] theorem updateContentHiding_buttonLabel (s : CWState) :
    (updateContentHiding s).buttonLabel = s.buttonLabel := by
  unfold updateContentHiding; (repeat' split) <;> rfl

@[simp] theorem updateContentHiding_announcement (s : CWState) :
    (updateContentHiding s).announcement = s.announcement := by
  unfold updateContentHiding; (repeat' split) <;> rfl

@[simp] theorem updateContentHiding_slotted (s : CWState) :
    (updateContentHiding s).slotted = s.slotted := by
  unfold updateContentHiding; (repeat' split) <;> rfl

@[simp] theorem updateContentHiding_events (s : CWState) :
    (updateContentHiding s).events = s.events := by
  unfold updateContentHiding; (repeat' split) <;> rfl

@[simp] theorem updateContentHiding_ownType (s : CWState) :
    (updateContentHiding s).ownType = s.ownType := by
  unfold updateContentHiding; (repeat' split) <;> rfl

@[simp] theorem updateContentHiding_ownLabelPrefix (s : CWState) :
    (updateContentHiding s).ownLabelPrefix = s.ownLabelPrefix := by
  unfold updateContentHiding; (repeat' split) <;> rfl

@[simp] theorem updateContentHiding_ownLabelSuffix (s : CWState) :
    (updateContentHiding s).ownLabelSuffix = s.ownLabelSuffix := by
  unfold updateContentHiding; (repeat' split) <;> rfl

@[simp] theorem announceReveal_host (s : CWState) :
    (announceReveal s).host = s.host := by
  unfold announceReveal; (repeat' split) <;> rfl

@[simp] theorem announceReveal_isRendered (s : CWState) :
    (announceReveal s).isRendered = s.isRendered := by
  unfold announceReveal; (repeat' split) <;> rfl

@[simp] theorem announceReveal_revealed (s : CWState) :
    (announceReveal s).revealed = s.revealed := by
  unfold announceReveal; (repeat' split) <;> rfl

@[simp] theorem announceReveal_isInline (s : CWState) :
    (announceReveal s).isInline = s.isInline := by
  unfold announceReveal; (repeat' split) <;> rfl

@[simp] theorem announceReveal_overlayRef (s : CWState) :
    (announceReveal s).overlayRef = s.overlayRef := by
  unfold announceReveal; (repeat' split) <;> rfl

@[simp] theorem announceReveal_buttonRef (s : CWState) :
    (announceReveal s).buttonRef = s.buttonRef := by
  unfold announceReveal; (repeat' split) <;> rfl

@[simp] theorem announceReveal_wrapperRef (s : CWState) :
    (announceReveal s).wrapperRef = s.wrapperRef := by
  unfold announceReveal; (repeat' split) <;> rfl

@[simp] theorem announceReveal_announcementRef (s : CWState) :
    (announceReveal s).announcementRef = s.announcementRef := by
  unfold announceReveal; (repeat' split) <;> rfl

@[simp] theorem announceReveal_slotRef (s : CWState) :
    (announceReveal s).slotRef = s.slotRef := by
  unfold announceReveal; (repeat' split) <;> rfl

@[simp] theorem announceReveal_wrapper (s : CWState) :
    (announceReveal s).wrapper = s.wrapper := by
  unfold announceReveal; (repeat' split) <;> rfl

@[simp] theorem announceReveal_buttonLabel (s : CWState) :
    (announceReveal s).buttonLabel = s.buttonLabel := by
  unfold announceReveal; (repeat' split) <;> rfl

@[simp] theorem announceReveal_slotted (s : CWState) :
    (announceReveal s).slotted = s.slotted := by
  unfold announceReveal; (repeat' split) <;> rfl

@[simp] theorem announceReveal_events (s : CWState) :
    (announceReveal s).events = s.events := by
  unfold announceReveal; (repeat' split) <;> rfl

@[simp] theorem announceReveal_ownType (s : CWState) :
    (announceReveal s).ownType = s.ownType := by
  unfold announceReveal; (repeat' split) <;> rfl

@[simp] theorem announceReveal_ownLabelPrefix (s : CWState) :
    (announceReveal s).ownLabelPrefix = s.ownLabelPrefix := by
  unfold announceReveal; (repeat' split) <;> rfl

@[simp] theorem announceReveal_ownLabelSuffix (s : CWState) :
    (announceReveal s).ownLabelSuffix = s.ownLabelSuffix := by
  unfold announceReveal; (repeat' split) <;> rfl

@[simp] theorem attributeChangedCallback_host (s : CWState) (n : String)
    (o v : Option String) :
    (attributeChangedCallback s n o v).host = s.host := by
  unfold attributeChangedCallback; (repeat' split) <;> simp

@[simp] theorem attributeChangedCallback_isRendered (s : CWState) (n : String)
    (o v : Option String) :
    (attributeChangedCallback s n o v).isRendered = s.isRendered := by
  unfold attributeChangedCallback; (repeat' split) <;> simp

@[simp] theorem attributeChangedCallback_revealed (s : CWState) (n : String)
    (o v : Option String) :
    (attributeChangedCallback s n o v).revealed = s.revealed := by
  unfold attributeChangedCallback; (repeat' split) <;> simp

@[simp] theorem attributeChangedCallback_isInline (s : CWState) (n : String)
    (o v : Option String) :
    (attributeChangedCallback s n o v).isInline = s.isInline := by
  unfold attributeChangedCallback; (repeat' split) <;> simp

@[simp] theorem attributeChangedCallback_overlayRef (s : CWState) (n : String)
    (o v : Option String) :
    (attributeChangedCallback s n o v).overlayRef = s.overlayRef := by
  unfold attributeChangedCallback; (repeat' split) <;> simp

@[simp] theorem attributeChangedCallback_buttonRef (s : CWState) (n : String)
    (o v : Option String) :
    (attributeChangedCallback s n o v).buttonRef = s.buttonRef := by
  unfold attributeChangedCallback; (repeat' split) <;> simp

@[simp] theorem attributeChangedCallback_wrapperRef (s : CWState) (n : String)
    (o v : Option String) :
    (attributeChangedCallback s n o v).wrapperRef = s.wrapperRef := by
  unfold attributeChangedCallback; (repeat' split) <;> simp

@[simp] theorem attributeChangedCallback_announcementRef (s : CWState) (n : String)
    (o v : Option String) :
    (attributeChangedCallback s n o v).announcementRef = s.announcementRef := by
  unfold attributeChangedCallback; (repeat' split) <;> simp

@[simp] theorem attributeChangedCallback_slotRef (s : CWState) (n : String)
    (o v : Option String) :
    (attributeChangedCallback s n o v).slotRef = s.slotRef := by
  unfold attributeChangedCallback; (repeat' split) <;> simp

@[simp] theorem attributeChangedCallback_announcement (s : CWState) (n : String)
    (o v : Option String) :
    (attributeChangedCallback s n o v).announcement = s.announcement := by
  unfold attributeChangedCallback; (repeat' split) <;> simp

@[simp] theorem attributeChangedCallback_slotted (s : CWState) (n : String)
    (o v : Option String) :
    (attributeChangedCallback s n o v).slotted = s.slotted := by
  unfold attributeChangedCallback; (repeat' split) <;> simp

@[simp] theorem attributeChangedCallback_events (s : CWState) (n : String)
    (o v : Option String) :
    (attributeChangedCallback s n o v).events = s.events := by
  unfold attributeChangedCallback; (repeat' split) <;> simp

@[simp] theorem attributeChangedCallback_ownType (s : CWState) (n : String)
    (o v : Option String) :
    (attributeChangedCallback s n o v).ownType = s.ownType := by
  unfold attributeChangedCallback; (repeat' split) <;> simp

@[simp] theorem attributeChangedCallback_ownLabelPrefix (s : CWState) (n : String)
    (o v : Option String) :
    (attributeChangedCallback s n o v).ownLabelPrefix = s.ownLabelPrefix := by
  unfold attributeChangedCallback; (repeat' split) <;> simp

@[simp] theorem attributeChangedCallback_ownLabelSuffix (s : CWState) (n : String)
    (o v : Option String) :
    (attributeChangedCallback s n o v).ownLabelSuffix = s.ownLabelSuffix := by
  unfold attributeChangedCallback; (repeat' split) <;> simp


theorem hostSetAttribute_host (s : CWState) (n v : String) :
    (hostSetAttribute s n v).host = setA s.host n v := by
  unfold hostSetAttribute; split <;> simp

@[simp] theorem hostSetAttribute_isRendered (s : CWState) (n v : String) :
    (hostSetAttribute s n v).isRendered = s.isRendered := by
  unfold hostSetAttribute; split <;> simp

@[simp] theorem hostSetAttribute_revealed (s : CWState) (n v : String) :
    (hostSetAttribute s n v).revealed = s.revealed := by
  unfold hostSetAttribute; split <;> simp

@[simp] theorem hostSetAttribute_isInline (s : CWState) (n v : String) :
    (hostSetAttribute s n v).isInline = s.isInline := by
  unfold hostSetAttribute; split <;> simp

@[simp] theorem hostSetAttribute_overlayRef (s : CWState) (n v : String) :
    (hostSetAttribute s n v).overlayRef = s.overlayRef := by
  unfold hostSetAttribute; split <;> simp

@[simp] theorem hostSetAttribute_buttonRef (s : CWState) (n v : String) :
    (hostSetAttribute s n v).buttonRef = s.buttonRef := by
  unfold hostSetAttribute; split <;> simp

@[simp] theorem hostSetAttribute_wrapperRef (s : CWState) (n v : String) :
    (hostSetAttribute s n v).wrapperRef = s.wrapperRef := by
  unfold hostSetAttribute; split <;> simp

@[simp] theorem hostSetAttribute_announcementRef (s : CWState) (n v : String) :
    (hostSetAttribute s n v).announcementRef = s.announcementRef := by
  unfold hostSetAttribute; split <;> simp

@[simp] theorem hostSetAttribute_slotRef (s : CWState) (n v : String) :
    (hostSetAttribute s n v).slotRef = s.slotRef := by
  unfold hostSetAttribute; split <;> simp

@[simp] theorem hostSetAttribute_announcement (s : CWState) (n v : String) :
    (hostSetAttribute s n v).announcement = s.announcement := by
  unfold hostSetAttribute; split <;> simp

@[simp] theorem hostSetAttribute_slotted (s : CWState) (n v : String) :
    (hostSetAttribute s n v).slotted = s.slotted := by
  unfold hostSetAttribute; split <;> simp

@[simp] theorem hostSetAttribute_events (s : CWState) (n v : String) :
    (hostSetAttribute s n v).events = s.events := by
  unfold hostSetAttribute; split <;> simp

@[simp] theorem hostSetAttribute_ownType (s : CWState) (n v : String) :
    (hostSetAttribute s n v).ownType = s.ownType := by
  unfold hostSetAttribute; split <;> simp

@[simp] theorem hostSetAttribute_ownLabelPrefix (s : CWState) (n v : String) :
    (hostSetAttribute s n v).ownLabelPrefix = s.ownLabelPrefix := by
  unfold hostSetAttribute; split <;> simp

@[simp] theorem hostSetAttribute_ownLabelSuffix (s : CWState) (n v : String) :
    (hostSetAttribute s n v).ownLabelSuffix = s.ownLabelSuffix := by
  unfold hostSetAttribute; split <;> simp

theorem hostRemoveAttribute_host (s : CWState) (n : String) :
    (hostRemoveAttribute s n).host = removeA s.host n := by
  unfold hostRemoveAttribute
  cases h : getA s.host n
  · rw [removeA_of_absent _ _ h]
  · (repeat' split) <;> simp_all

@[simp] theorem hostRemoveAttribute_isRendered (s : CWState) (n : String) :
    (hostRemoveAttribute s n).isRendered = s.isRendered := by
  unfold hostRemoveAttribute
  cases h : getA s.host n
  · rfl
  · (repeat' split) <;> simp_all

@[simp] theorem hostRemoveAttribute_revealed (s : CWState) (n : String) :
    (hostRemoveAttribute s n).revealed = s.revealed := by
  unfold hostRemoveAttribute
  cases h : getA s.host n
  · rfl
  · (repeat' split) <;> simp_all

@[simp] theorem hostRemoveAttribute_isInline (s : CWState) (n : String) :
    (hostRemoveAttribute s n).isInline = s.isInline := by
  unfold hostRemoveAttribute
  cases h : getA s.host n
  · rfl
  · (repeat' split) <;> simp_all

@[simp] theorem hostRemoveAttribute_overlayRef (s : CWState) (n : String) :
    (hostRemoveAttribute s n).overlayRef = s.overlayRef := by
  unfold hostRemoveAttribute
  cases h : getA s.host n
  · rfl
  · (repeat' split) <;> simp_all

@[simp] theorem hostRemoveAttribute_buttonRef (s : CWState) (n : String) :
    (hostRemoveAttribute s n).buttonRef = s.buttonRef := by
  unfold hostRemoveAttribute
  cases h : getA s.host n
  · rfl
  · (repeat' split) <;> simp_all

@[simp] theorem hostRemoveAttribute_wrapperRef (s : CWState) (n : String) :
    (hostRemoveAttribute s n).wrapperRef = s.wrapperRef := by
  unfold hostRemoveAttribute
  cases h : getA s.host n
  · rfl
  · (repeat' split) <;> simp_all

@[simp] theorem hostRemoveAttribute_announcementRef (s : CWState) (n : String) :
    (hostRemoveAttribute s n).announcementRef = s.announcementRef := by
  unfold hostRemoveAttribute
  cases h : getA s.host n
  · rfl
  · (repeat' split) <;> simp_all

@[simp] theorem hostRemoveAttribute_slotRef (s : CWState) (n : String) :
    (hostRemoveAttribute s n).slotRef = s.slotRef := by
  unfold hostRemoveAttribute
  cases h : getA s.host n
  · rfl
  · (repeat' split) <;> simp_all

@[simp] theorem hostRemoveAttribute_announcement (s : CWState) (n : String) :
    (hostRemoveAttribute s n).announcement = s.announcement := by
  unfold hostRemoveAttribute
  cases h : getA s.host n
  · rfl
  · (repeat' split) <;> simp_all

@[simp] theorem hostRemoveAttribute_slotted (s : CWState) (n : String) :
    (hostRemoveAttribute s n).slotted = s.slotted := by
  unfold hostRemoveAttribute
  cases h : getA s.host n
  · rfl
  · (repeat' split) <;> simp_all

@[simp] theorem hostRemoveAttribute_events (s : CWState) (n : String) :
    (hostRemoveAttribute s n).events = s.events := by
  unfold hostRemoveAttribute
  cases h : getA s.host n
  · rfl
  · (repeat' split) <;> simp_all

@[simp] theorem hostRemoveAttribute_ownType (s : CWState) (n : String) :
    (hostRemoveAttribute s n).ownType = s.ownType := by
  unfold hostRemoveAttribute
  cases h : getA s.host n
  · rfl
  · (repeat' split) <;> simp_all

@[simp] theorem hostRemoveAttribute_ownLabelPrefix (s : CWState) (n : String) :
    (hostRemoveAttribute s n).ownLabelPrefix = s.ownLabelPrefix := by
  unfold hostRemoveAttribute
  cases h : getA s.host n
  · rfl
  · (repeat' split) <;> simp_all

@[simp] theorem hostRemoveAttribute_ownLabelSuffix (s : CWState) (n : String) :
    (hostRemoveAttribute s n).ownLabelSuffix = s.ownLabelSuffix := by
  unfold hostRemoveAttribute
  cases h : getA s.host n
  · rfl
  · (repeat' split) <;> simp_all


theorem getA_hostSetAttribute_self (s : CWState) (n v : String) :
    getA (hostSetAttribute s n v).host n = some v := by
  rw [hostSetAttribute_host]; exact getA_setA_self _ _ _

theorem getA_hostSetAttribute_ne (s : CWState) (n v m : String) (h : m ≠ n) :
    getA (hostSetAttribute s n v).host m = getA s.host m := by
  rw [hostSetAttribute_host]; exact getA_setA_ne _ _ _ _ h

theorem getA_hostRemoveAttribute_self (s : CWState) (n : String) :
    getA (hostRemoveAttribute s n).host n = none := by
  rw [hostRemoveAttribute_host]; exact getA_removeA_self _ _

theorem getA_hostRemoveAttribute_ne (s : CWState) (n m : String) (h : m ≠ n) :
    getA (hostRemoveAttribute s n).host m = getA s.host m := by
  rw [hostRemoveAttribute_host]; exact getA_removeA_ne _ _ _ h

theorem revealedNotObserved : observedAttributes.contains "revealed" = false := by
  decide

theorem roleNotObserved : observedAttributes.contains "role" = false := by
  decide

theorem revealedNotMem : "revealed" ∉ observedAttributes := by decide

theorem roleNotMem : "role" ∉ observedAttributes := by decide

theorem reveal_host (s : CWState) :
    (reveal s).host = setA (setA s.host "revealed" "") "role" "alert" := by
  unfold reveal
  simp [hostSetAttribute, revealedNotObserved, roleNotObserved,
    revealedNotMem, roleNotMem,
    apply_ite CWState.host]

theorem reveal_revealed (s : CWState) : (reveal s).revealed = true := by
  unfold reveal
  simp [hostSetAttribute, revealedNotObserved, roleNotObserved,
    revealedNotMem, roleNotMem,
    apply_ite CWState.revealed]

theorem reveal_events (s : CWState) :
    (reveal s).events = s.events ++ [revealedEvent (getA s.host "type")] := by
  unfold reveal
  simp [hostSetAttribute, revealedNotObserved, roleNotObserved, revealedEvent,
    apply_ite CWState.events, apply_ite CWState.host,
    getA_setA_ne _ _ _ _ (by decide : ("type" : String) ≠ "role"),
    getA_setA_ne _ _ _ _ (by decide : ("type" : String) ≠ "revealed")]

theorem reveal_overlayRef (s : CWState) : (reveal s).overlayRef = false := by
  unfold reveal
  simp [hostSetAttribute, revealedNotObserved, roleNotObserved,
    revealedNotMem, roleNotMem,
    apply_ite CWState.overlayRef]

theorem reveal_buttonRef (s : CWState) :
    (reveal s).buttonRef = (if s.overlayRef then false else s.buttonRef) := by
  unfold reveal
  simp [hostSetAttribute, revealedNotObserved, roleNotObserved,
    revealedNotMem, roleNotMem,
    apply_ite CWState.buttonRef, apply_ite CWState.overlayRef]

theorem reveal_isRendered (s : CWState) :
    (reveal s).isRendered = s.isRendered := by
  unfold reveal
  simp [hostSetAttribute, revealedNotObserved, roleNotObserved,
    revealedNotMem, roleNotMem,
    apply_ite CWState.isRendered]

theorem reveal_wrapperRef (s : CWState) :
    (reveal s).wrapperRef = s.wrapperRef := by
  unfold reveal
  simp [hostSetAttribute, revealedNotObserved, roleNotObserved,
    revealedNotMem, roleNotMem,
    apply_ite CWState.wrapperRef]

theorem reveal_announcementRef (s : CWState) :
    (reveal s).announcementRef = s.announcementRef := by
  unfold reveal
  simp [hostSetAttribute, revealedNotObserved, roleNotObserved,
    revealedNotMem, roleNotMem,
    apply_ite CWState.announcementRef]

theorem reveal_slotRef (s : CWState) : (reveal s).slotRef = s.slotRef := by
  unfold reveal
  simp [hostSetAttribute, revealedNotObserved, roleNotObserved,
    revealedNotMem, roleNotMem,
    apply_ite CWState.slotRef]

theorem reveal_slotted (s : CWState) : (reveal s).slotted = s.slotted := by
  unfold reveal
  simp [hostSetAttribute, revealedNotObserved, roleNotObserved,
    revealedNotMem, roleNotMem,
    apply_ite CWState.slotted]

theorem reveal_wrapper (s : CWState) (h : s.wrapperRef = true) :
    (reveal s).wrapper = ⟨false, false, false⟩ := by
  unfold reveal
  simp [hostSetAttribute, revealedNotObserved, roleNotObserved,
    revealedNotMem, roleNotMem, h, apply_ite CWState.wrapper]

theorem reveal_announcement (s : CWState) (h1 : s.announcementRef = true)
    (h2 : s.slotRef = true) :
    (reveal s).announcement = cloneNodes (assignedElements s.slotted) := by
  unfold reveal
  simp [hostSetAttribute, revealedNotObserved, roleNotObserved, announceReveal,
    revealedNotMem, roleNotMem,
    h1, h2, apply_ite CWState.announcement, apply_ite CWState.slotted,
    apply_ite CWState.announcementRef, apply_ite CWState.slotRef]

theorem hasA_setA_self (a : AttrList) (n v : String) :
    hasA (setA a n v) n = true := by
  simp [hasA, getA_setA_self]

theorem hasA_setA_ne (a : AttrList) (n v m : String) (h : m ≠ n) :
    hasA (setA a n v) m = hasA a m := by
  simp [hasA, getA_setA_ne _ _ _ _ h]

theorem hasA_removeA_self (a : AttrList) (n : String) :
    hasA (removeA a n) n = false := by
  simp [hasA, getA_removeA_self]

theorem hasA_removeA_ne (a : AttrList) (n m : String) (h : m ≠ n) :
    hasA (removeA a n) m = hasA a m := by
  simp [hasA, getA_removeA_ne _ _ _ h]

/-- When the widget is not yet rendered, every attribute-change notification
is silently ignored: the callback returns the state unchanged. -/
theorem acbOfNotRendered (s : CWState) (n : String) (o v : Option String)
    (h : s.isRendered = false) : attributeChangedCallback s n o v = s := by
  unfold attributeChangedCallback
  (repeat' split) <;> simp_all

/-- After reveal, every attribute-change notification leaves the state
unchanged: both presentation-updating branches are guarded on not revealed. -/
theorem acbOfRevealed (s : CWState) (n : String) (o v : Option String)
    (h : s.revealed = true) : attributeChangedCallback s n o v = s := by
  unfold attributeChangedCallback
  (repeat' split) <;> simp_all

/-- A notification with equal old and new values returns early. -/
theorem acbOfEq (s : CWState) (n : String) (o v : Option String)
    (h : o = v) : attributeChangedCallback s n o v = s := by
  unfold attributeChangedCallback
  simp [h]

/-- The callback only touches the wrapper when the changed attribute is
blur. -/
theorem acb_wrapper_ne_blur (s : CWState) (n : String) (o v : Option String)
    (h : n ≠ "blur") :
    (attributeChangedCallback s n o v).wrapper = s.wrapper := by
  unfold attributeChangedCallback
  (repeat' split) <;> simp_all

/-- A genuine blur change while rendered and unrevealed re-derives the
content hiding. -/
theorem acb_blur_unrevealed (s : CWState) (o v : Option String)
    (ho : ¬ o = v) (hr : s.isRendered = true) (hv : s.revealed = false) :
    attributeChangedCallback s "blur" o v = updateContentHiding s := by
  unfold attributeChangedCallback
  simp [ho, hr, hv]

theorem handleClick_of_revealed (s : CWState) (h : s.revealed = true) :
    handleClick s = s := by
  simp [handleClick, h]

theorem handleClick_of_unrevealed (s : CWState) (h : s.revealed = false) :
    handleClick s = reveal s := by
  simp [handleClick, h]

theorem handleClick_handleClick (s : CWState) :
    handleClick (handleClick s) = handleClick s := by
  by_cases h : s.revealed
  · simp [handleClick, h]
  · simp [handleClick, h, reveal_revealed]

/-- After reveal, every external operation changes at most the host
attribute list: the presentation (wrapper, label, announcement, events,
references, internal flags) is frozen. -/
theorem step_of_revealed (s : CWState) (op : Op) (h : s.revealed = true) :
    ∃ a, step s op = { s with host := a } := by
  cases op with
  | setAttr n v =>
      refine ⟨setA s.host n v, ?_⟩
      show hostSetAttribute s n v = _
      unfold hostSetAttribute
      split <;> simp_all [acbOfRevealed]
  | removeAttr n =>
      refine ⟨removeA s.host n, ?_⟩
      show hostRemoveAttribute s n = _
      unfold hostRemoveAttribute
      cases hg : getA s.host n
      · rw [removeA_of_absent _ _ hg]
      · (repeat' split) <;> simp_all [acbOfRevealed]
  | setProp k v =>
      cases v with
      | none =>
          refine ⟨removeA s.host (attrName k), ?_⟩
          show propSet k none s = _
          unfold propSet hostRemoveAttribute
          cases hg : getA s.host (attrName k)
          · rw [removeA_of_absent _ _ hg]
          · (repeat' split) <;> simp_all [acbOfRevealed]
      | some x =>
          refine ⟨setA s.host (attrName k) x, ?_⟩
          show propSet k (some x) s = _
          unfold propSet hostSetAttribute
          split <;> simp_all [acbOfRevealed]
  | click =>
      refine ⟨s.host, ?_⟩
      show (if s.overlayRef then handleClick s else s) = _
      split <;> simp [handleClick_of_revealed _ h]
  | key k =>
      exact ⟨s.host, rfl⟩

/-- Iterated version: after reveal, a whole sequence of external operations
changes at most the host attribute list. -/
theorem run_of_revealed (s : CWState) (ops : List Op)
    (h : s.revealed = true) :
    run s ops = { s with host := (run s ops).host } := by
  induction ops generalizing s with
  | nil => rfl
  | cons op rest ih =>
      obtain ⟨a, ha⟩ := step_of_revealed s op h
      have hrun : run s (op :: rest) = run (step s op) rest := rfl
      rw [hrun, ha]
      rw [ih { s with host := a } h]

theorem blurObserved : observedAttributes.contains "blur" = true := by decide

theorem hidingTable_true (b : Bool) :
    hidingTable true b = ⟨false, false, false⟩ := rfl

theorem hostSetAttribute_wrapper_ne_blur (s : CWState) (n v : String)
    (hn : n ≠ "blur") :
    (hostSetAttribute s n v).wrapper = s.wrapper := by
  unfold hostSetAttribute
  split
  · exact acb_wrapper_ne_blur _ _ _ _ hn
  · rfl

theorem hostRemoveAttribute_wrapper_ne_blur (s : CWState) (n : String)
    (hn : n ≠ "blur") :
    (hostRemoveAttribute s n).wrapper = s.wrapper := by
  unfold hostRemoveAttribute
  cases hg : getA s.host n
  · rfl
  · (repeat' split) <;> simp_all [acb_wrapper_ne_blur _ _ _ _ hn]

theorem hostSetAttribute_wrapper_blur (s : CWState) (v : String)
    (hR : s.isRendered = true) (hr : s.revealed = false)
    (hW : s.wrapperRef = true)
    (hT : s.wrapper = hidingTable false (hasA s.host "blur")) :
    (hostSetAttribute s "blur" v).wrapper = ⟨false, false, true⟩ := by
  unfold hostSetAttribute
  rw [if_pos blurObserved]
  by_cases he : getA s.host "blur" = some v
  · rw [acbOfEq _ _ _ _ (by simp [he])]
    show s.wrapper = _
    rw [hT]
    have : hasA s.host "blur" = true := by simp [hasA, he]
    rw [this]
    rfl
  · rw [acb_blur_unrevealed _ _ _ (by simp [he]) (by simp [hR]) (by simp [hr])]
    unfold updateContentHiding
    rw [if_pos (by simp [hW])]
    rw [if_pos (by simp [hasA_setA_self])]

theorem hostRemoveAttribute_wrapper_blur (s : CWState)
    (hR : s.isRendered = true) (hr : s.revealed = false)
    (hW : s.wrapperRef = true) :
    (hostRemoveAttribute s "blur").wrapper =
      hidingTable false (hasA (removeA s.host "blur") "blur") ∨
    (getA s.host "blur" = none ∧
      (hostRemoveAttribute s "blur").wrapper = s.wrapper) := by
  unfold hostRemoveAttribute
  cases hg : getA s.host "blur" with
  | none => exact Or.inr ⟨rfl, rfl⟩
  | some old =>
      left
      show (if observedAttributes.contains "blur" = true then
              attributeChangedCallback { s with host := removeA s.host "blur" }
                "blur" (some old) none
            else { s with host := removeA s.host "blur" }).wrapper = _
      rw [if_pos blurObserved]
      rw [acb_blur_unrevealed _ _ _ (by simp) (by simp [hR]) (by simp [hr])]
      unfold updateContentHiding
      rw [if_pos (by simp [hW] : ({ s with host := removeA s.host "blur" } :
        CWState).wrapperRef = true)]
      rw [if_neg (by simp [hasA_removeA_self])]
      simp [hasA_removeA_self, hidingTable]

theorem bool_not_true {b : Bool} (h : ¬ b = true) : b = false := by
  revert h; cases b <;> simp

theorem inv_hostSet (s : CWState) (n v : String) (hI : Inv s) :
    Inv (hostSetAttribute s n v) := by
  obtain ⟨hR, hW, hA, hS, hT, hU, hV⟩ := hI
  by_cases hr : s.revealed = true
  · have he : hostSetAttribute s n v = { s with host := setA s.host n v } := by
      unfold hostSetAttribute; split <;> simp_all [acbOfRevealed]
    rw [he]
    refine ⟨hR, hW, hA, hS, ?_, ?_, ?_⟩
    · show s.wrapper = hidingTable s.revealed (hasA (setA s.host n v) "blur")
      rw [hT, hr]; rfl
    · intro hc; rw [show ({ s with host := setA s.host n v } :
        CWState).revealed = s.revealed from rfl, hr] at hc; simp at hc
    · intro _; exact hV hr
  · have hr' : s.revealed = false := bool_not_true hr
    refine ⟨by simp [hR], by simp [hW], by simp [hA], by simp [hS],
      ?_, ?_, ?_⟩
    · by_cases hn : n = "blur"
      · subst hn
        rw [hostSetAttribute_wrapper_blur s v hR hr' hW (by rw [hT, hr'])]
        simp [hr', hostSetAttribute_host, hasA_setA_self, hidingTable]
      · rw [hostSetAttribute_wrapper_ne_blur s n v hn, hT, hr']
        simp [hr', hostSetAttribute_host, hasA_setA_ne _ _ _ _ (Ne.symm hn)]
    · intro _
      exact ⟨by simp [(hU hr').1], by simp [(hU hr').2]⟩
    · intro hc
      rw [hostSetAttribute_revealed] at hc
      exact absurd hc (by simp [hr'])

theorem inv_hostRemove (s : CWState) (n : String) (hI : Inv s) :
    Inv (hostRemoveAttribute s n) := by
  obtain ⟨hR, hW, hA, hS, hT, hU, hV⟩ := hI
  by_cases hr : s.revealed = true
  · have he : hostRemoveAttribute s n = { s with host := removeA s.host n } := by
      unfold hostRemoveAttribute
      cases hg : getA s.host n
      · rw [removeA_of_absent _ _ hg]
      · (repeat' split) <;> simp_all [acbOfRevealed]
    rw [he]
    refine ⟨hR, hW, hA, hS, ?_, ?_, ?_⟩
    · show s.wrapper = hidingTable s.revealed (hasA (removeA s.host n) "blur")
      rw [hT, hr]; rfl
    · intro hc; rw [show ({ s with host := removeA s.host n } :
        CWState).revealed = s.revealed from rfl, hr] at hc; simp at hc
    · intro _; exact hV hr
  · have hr' : s.revealed = false := bool_not_true hr
    refine ⟨by simp [hR], by simp [hW], by simp [hA], by simp [hS],
      ?_, ?_, ?_⟩
    · by_cases hn : n = "blur"
      · subst hn
        rcases hostRemoveAttribute_wrapper_blur s hR hr' hW with
          hcase | ⟨habs, hsame⟩
        · rw [hcase]
          simp [hr', hostRemoveAttribute_host]
        · rw [hsame, hT, hr']
          simp [hr', hostRemoveAttribute_host, removeA_of_absent _ _ habs]
      · rw [hostRemoveAttribute_wrapper_ne_blur s n hn, hT, hr']
        simp [hr', hostRemoveAttribute_host,
          hasA_removeA_ne _ _ _ (Ne.symm hn)]
    · intro _
      exact ⟨by simp [(hU hr').1], by simp [(hU hr').2]⟩
    · intro hc
      rw [hostRemoveAttribute_revealed] at hc
      exact absurd hc (by simp [hr'])

theorem inv_step (s : CWState) (op : Op) (hI : Inv s) : Inv (step s op) := by
  cases op with
  | setAttr n v => exact inv_hostSet s n v hI
  | removeAttr n => exact inv_hostRemove s n hI
  | setProp k v =>
      cases v with
      | none => exact inv_hostRemove s (attrName k) hI
      | some x => exact inv_hostSet s (attrName k) x hI
  | click =>
      show Inv (if s.overlayRef then handleClick s else s)
      split
      · by_cases hr : s.revealed = true
        · rw [handleClick_of_revealed s hr]; exact hI
        · have hr' : s.revealed = false := bool_not_true hr
          rw [handleClick_of_unrevealed s hr']
          obtain ⟨hR, hW, hA, hS, hT, hU, hV⟩ := hI
          refine ⟨by simp [reveal_isRendered, hR],
            by simp [reveal_wrapperRef, hW],
            by simp [reveal_announcementRef, hA],
            by simp [reveal_slotRef, hS], ?_, ?_, ?_⟩
          · rw [reveal_wrapper s hW, reveal_revealed]; rfl
          · intro hc; rw [reveal_revealed] at hc; simp at hc
          · intro _
            rw [reveal_events, (hU hr').1]
            rfl
      · exact hI
  | key k => exact hI

theorem render_host (s : CWState) : (render s).host = s.host := by
  unfold render updateContentHiding; simp [apply_ite CWState.host]

theorem render_revealed (s : CWState) : (render s).revealed = s.revealed := by
  unfold render updateContentHiding; simp [apply_ite CWState.revealed]

theorem render_events (s : CWState) : (render s).events = s.events := by
  unfold render updateContentHiding; simp [apply_ite CWState.events]

theorem render_slotted (s : CWState) : (render s).slotted = s.slotted := by
  unfold render updateContentHiding; simp [apply_ite CWState.slotted]

theorem render_isRendered (s : CWState) : (render s).isRendered = true := by
  unfold render updateContentHiding; simp [apply_ite CWState.isRendered]

theorem render_overlayRef (s : CWState) : (render s).overlayRef = true := by
  unfold render updateContentHiding; simp [apply_ite CWState.overlayRef]

theorem render_buttonRef (s : CWState) : (render s).buttonRef = true := by
  unfold render updateContentHiding; simp [apply_ite CWState.buttonRef]

theorem render_wrapperRef (s : CWState) : (render s).wrapperRef = true := by
  unfold render updateContentHiding; simp [apply_ite CWState.wrapperRef]

theorem render_announcementRef (s : CWState) :
    (render s).announcementRef = true := by
  unfold render updateContentHiding; simp [apply_ite CWState.announcementRef]

theorem render_slotRef (s : CWState) : (render s).slotRef = true := by
  unfold render updateContentHiding; simp [apply_ite CWState.slotRef]

theorem render_announcement (s : CWState) : (render s).announcement = [] := by
  unfold render updateContentHiding; simp [apply_ite CWState.announcement]

theorem render_buttonLabel (s : CWState) :
    (render s).buttonLabel = some (composeRender (getA s.host "label-prefix")
      (getA s.host "type") (getA s.host "label-suffix")) := by
  unfold render updateContentHiding; simp [apply_ite CWState.buttonLabel]

theorem render_wrapper (s : CWState) :
    (render s).wrapper = hidingTable false (hasA s.host "blur") := by
  unfold render updateContentHiding hidingTable
  simp [apply_ite CWState.wrapper]

theorem inv_render (s : CWState) (h1 : s.revealed = false)
    (h2 : s.events = []) : Inv (render s) := by
  refine ⟨render_isRendered s, render_wrapperRef s, render_announcementRef s,
    render_slotRef s, ?_, ?_, ?_⟩
  · rw [render_wrapper, render_revealed, h1, render_host]
  · intro _
    exact ⟨by rw [render_events]; exact h2, render_announcement s⟩
  · intro hc
    rw [render_revealed, h1] at hc
    simp at hc

theorem upgradeProperty_revealed (k : ConfigKey) (s : CWState) :
    (upgradeProperty k s).revealed = s.revealed := by
  unfold upgradeProperty
  cases h : ownProp k s
  · rfl
  · cases k <;> simp [propSet, clearOwn]

theorem upgradeProperty_events (k : ConfigKey) (s : CWState) :
    (upgradeProperty k s).events = s.events := by
  unfold upgradeProperty
  cases h : ownProp k s
  · rfl
  · cases k <;> simp [propSet, clearOwn]

theorem inv_connected (a : AttrList) (ns : List Node) :
    Inv (connectedCallback (initialState a ns)) := by
  unfold connectedCallback
  apply inv_render
  · simp [upgradeProperty_revealed, initialState]
  · simp [upgradeProperty_events, initialState]

theorem inv_run (s : CWState) (ops : List Op) (hI : Inv s) :
    Inv (run s ops) := by
  induction ops generalizing s with
  | nil => exact hI
  | cons op rest ih => exact ih (step s op) (inv_step s op hI)

theorem upgradeProperty_some (k : ConfigKey) (s : CWState) (v : String)
    (h : ownProp k s = some v) :
    upgradeProperty k s = propSet k (some v) (clearOwn k s) := by
  unfold upgradeProperty
  rw [h]

theorem upgradeProperty_noop (k : ConfigKey) (t : CWState)
    (h : ownProp k t = none) : upgradeProperty k t = t := by
  unfold upgradeProperty
  rw [h]

theorem clearOwn_host (k : ConfigKey) (s : CWState) :
    (clearOwn k s).host = s.host := by
  cases k <;> rfl

theorem ownProp_upgradeProperty (k : ConfigKey) (s : CWState) :
    ownProp k (upgradeProperty k s) = none := by
  unfold upgradeProperty
  cases h : ownProp k s
  · exact h
  · cases k <;> simp [propSet, clearOwn, ownProp]

theorem upgradeProperty_upgradeProperty (k : ConfigKey) (s : CWState) :
    upgradeProperty k (upgradeProperty k s) = upgradeProperty k s :=
  upgradeProperty_noop k _ (ownProp_upgradeProperty k s)

theorem upgradeProperty_ownProp_ne (k kj : ConfigKey) (t : CWState)
    (h : ¬ k = kj) : ownProp k (upgradeProperty kj t) = ownProp k t := by
  unfold upgradeProperty
  cases hk : ownProp kj t
  · rfl
  · cases kj <;> cases k <;> simp_all [propSet, clearOwn, ownProp]

theorem upgradeProperty_getA_ne (kj : ConfigKey) (t : CWState) (m : String)
    (h : ¬ m = attrName kj) :
    getA (upgradeProperty kj t).host m = getA t.host m := by
  unfold upgradeProperty
  cases hk : ownProp kj t
  · rfl
  · cases kj <;>
      (simp_all [propSet, clearOwn, attrName, hostSetAttribute_host]
       exact getA_setA_ne _ _ _ _ h)

theorem upgradeProperty_getA_self (k : ConfigKey) (s : CWState) (v : String)
    (h : ownProp k s = some v) :
    getA (upgradeProperty k s).host (attrName k) = some v := by
  rw [upgradeProperty_some k s v h]
  cases k <;>
    simp [propSet, attrName, hostSetAttribute_host, getA_setA_self]

theorem connected_getA (k : ConfigKey) (s : CWState) (v : String)
    (h : ownProp k s = some v) :
    getA (connectedCallback s).host (attrName k) = some v := by
  unfold connectedCallback
  rw [render_host]
  show getA (upgradeProperty .labelSuffix (upgradeProperty .labelPrefix
    (upgradeProperty .type s))).host (attrName k) = some v
  cases k with
  | type =>
      rw [upgradeProperty_getA_ne _ _ _ (by decide),
        upgradeProperty_getA_ne _ _ _ (by decide)]
      exact upgradeProperty_getA_self .type s v h
  | labelPrefix =>
      rw [upgradeProperty_getA_ne _ _ _ (by decide)]
      have h1 : ownProp .labelPrefix (upgradeProperty .type s) = some v := by
        rw [upgradeProperty_ownProp_ne _ _ _ (by decide)]
        exact h
      exact upgradeProperty_getA_self .labelPrefix _ v h1
  | labelSuffix =>
      have h1 : ownProp .labelSuffix (upgradeProperty .labelPrefix
          (upgradeProperty .type s)) = some v := by
        rw [upgradeProperty_ownProp_ne _ _ _ (by decide),
          upgradeProperty_ownProp_ne _ _ _ (by decide)]
        exact h
      exact upgradeProperty_getA_self .labelSuffix _ v h1

/-! The claim theorems. -/

/-- C1: the first activation of the prompt sets revealed to true and any
further activation while already revealed is a no-op: the state after two
activations equals the state after one. The content-warning:revealed
notification is dispatched exactly once per instance (within one attached
lifetime), at the moment of the Hidden to Revealed transition, carrying
detail.type = the current type attribute value, bubbling and composed
(crossing the shadow boundary). -/
theorem claimRevealIdempotentNotifyOnce :
    ∀ s : CWState,
      handleClick (handleClick s) = handleClick s ∧
      (s.revealed = false →
        (handleClick s).revealed = true ∧
        (handleClick s).events =
          s.events ++ [revealedEvent (getA s.host "type")]) ∧
      (s.revealed = true → handleClick s = s) ∧
      (∀ t, (revealedEvent t).name = "content-warning:revealed" ∧
        (revealedEvent t).detailType = t ∧
        (revealedEvent t).bubbles = true ∧
        (revealedEvent t).composed = true) ∧
      (∀ (a : AttrList) (ns : List Node) (ops : List Op),
        (run (connectedCallback (initialState a ns)) ops).events.length =
          (if (run (connectedCallback (initialState a ns)) ops).revealed
            then 1 else 0)) := by
  intro s
  refine ⟨handleClick_handleClick s, ?_, handleClick_of_revealed s, ?_, ?_⟩
  · intro hr
    rw [handleClick_of_unrevealed s hr]
    exact ⟨reveal_revealed s, reveal_events s⟩
  · intro t
    exact ⟨rfl, rfl, rfl, rfl⟩
  · intro a ns ops
    obtain ⟨_, _, _, _, _, hU, hV⟩ := inv_run _ ops (inv_connected a ns)
    cases hrev : (run (connectedCallback (initialState a ns)) ops).revealed
    · rw [(hU hrev).1]
      simp
    · rw [hV hrev]
      simp

/-- C1 witness: on a concrete unrevealed rendered instance carrying
type = violence, one activation reveals and dispatches the single event;
a second activation changes nothing. -/
theorem claimRevealIdempotentNotifyOnceWitness :
    (connectedCallback (initialState [("type", "violence")] [])).revealed
      = false ∧
    (handleClick (connectedCallback
      (initialState [("type", "violence")] []))).revealed = true ∧
    (handleClick (connectedCallback
      (initialState [("type", "violence")] []))).events =
      [revealedEvent (some "violence")] := by
  refine ⟨rfl, ?_, ?_⟩
  · exact ((claimRevealIdempotentNotifyOnce _).2.1 rfl).1
  · have h := ((claimRevealIdempotentNotifyOnce
      (connectedCallback (initialState [("type", "violence")] []))).2.1 rfl).2
    rw [h]
    rfl

/-- C2: for every state reachable after the initial render within one
attached lifetime (any finite sequence of attribute mutations, property
assignments, clicks and key events, in particular any sequence of blur
toggles while unrevealed), the content wrapper carries exactly the
attribute set of the table for the current (revealed, hidingMode) pair:
hidden and inert without aria-hidden when unrevealed in structural mode,
aria-hidden alone when unrevealed in blur mode, none of the three when
revealed. -/
theorem claimHidingAttributeTable :
    ∀ (a : AttrList) (ns : List Node) (ops : List Op),
      (run (connectedCallback (initialState a ns)) ops).wrapper =
        hidingTable (run (connectedCallback (initialState a ns)) ops).revealed
          (hasA (run (connectedCallback (initialState a ns)) ops).host
            "blur") := by
  intro a ns ops
  exact (inv_run _ ops (inv_connected a ns)).2.2.2.2.1

/-- C3: for every configuration key in {type, labelPrefix, labelSuffix} and
every string X, setting the property to X then reading the attribute yields
X; setting the attribute then reading the property yields X; and setting
the property to null or undefined (none) removes the attribute, after which
the getter returns null (none). -/
theorem claimPropertyAttributeRoundTrip :
    ∀ (s : CWState) (k : ConfigKey) (x : String),
      getA (propSet k (some x) s).host (attrName k) = some x ∧
      propGet k (hostSetAttribute s (attrName k) x) = some x ∧
      getA (propSet k none s).host (attrName k) = none ∧
      propGet k (propSet k none s) = none := by
  intro s k x
  refine ⟨?_, ?_, ?_, ?_⟩
  · exact getA_hostSetAttribute_self s (attrName k) x
  · exact getA_hostSetAttribute_self s (attrName k) x
  · exact getA_hostRemoveAttribute_self s (attrName k)
  · exact getA_hostRemoveAttribute_self s (attrName k)

/-- C8: the reveal transition is triggered by a click on the prompt control
(the overlay, the only element render attaches a listener to); the prompt
control is a dedicated shadow button rather than the host itself, and the
source registers no keydown listener, so every key event on the widget
leaves the whole state unchanged, never reveals, and fires no
notification. -/
theorem claimActivationInputs :
    ∀ (s : CWState) (k : String),
      step s (.key k) = s ∧
      (s.overlayRef = true → s.revealed = false →
        (step s .click).revealed = true ∧
        (step s .click).events =
          s.events ++ [revealedEvent (getA s.host "type")]) ∧
      (s.revealed = true → step s .click = s) := by
  intro s k
  refine ⟨rfl, ?_, ?_⟩
  · intro ho hr
    show (if s.overlayRef = true then handleClick s else s).revealed
        = true ∧
      (if s.overlayRef = true then handleClick s else s).events =
        s.events ++ [revealedEvent (getA s.host "type")]
    rw [if_pos ho, handleClick_of_unrevealed s hr]
    exact ⟨reveal_revealed s, reveal_events s⟩
  · intro hr
    show (if s.overlayRef = true then handleClick s else s) = s
    split
    · exact handleClick_of_revealed s hr
    · rfl

/-- C8 witness: on a fresh rendered instance, the Space key (and any key)
changes nothing while a click reveals. -/
theorem claimActivationInputsWitness :
    step (connectedCallback (initialState [] [])) (.key "Space") =
      connectedCallback (initialState [] []) ∧
    (step (connectedCallback (initialState [] [])) .click).revealed
      = true := by
  refine ⟨(claimActivationInputs _ "Space").1, ?_⟩
  exact ((claimActivationInputs
    (connectedCallback (initialState [] [])) "Space").2.1 rfl rfl).1

/-- C9: after the reveal transition completes, the host element carries no
tabindex (the widget never installs one; the tab stop lives on the shadow
button, which reveal removes together with the overlay) and its role is
alert, a non-interactive live-region role, not the interactive button
role. -/
theorem claimPostRevealAffordances :
    ∀ s : CWState, getA s.host "tabindex" = none →
      getA (reveal s).host "tabindex" = none ∧
      getA (reveal s).host "role" = some "alert" ∧
      getA (reveal s).host "role" ≠ some "button" ∧
      (reveal s).overlayRef = false ∧
      (reveal s).buttonRef = (if s.overlayRef then false
        else s.buttonRef) := by
  intro s h
  have hrole : getA (reveal s).host "role" = some "alert" := by
    rw [reveal_host]
    exact getA_setA_self _ _ _
  refine ⟨?_, hrole, ?_, reveal_overlayRef s, reveal_buttonRef s⟩
  · rw [reveal_host]
    rw [getA_setA_ne _ _ _ _ (by decide), getA_setA_ne _ _ _ _ (by decide)]
    exact h
  · rw [hrole]
    simp

/-- C9 witness: a concrete rendered instance revealed by click has no
tabindex, role alert, and no overlay or button reference. -/
theorem claimPostRevealAffordancesWitness :
    getA (reveal (connectedCallback (initialState [] []))).host "tabindex"
      = none ∧
    getA (reveal (connectedCallback (initialState [] []))).host "role"
      = some "alert" ∧
    (reveal (connectedCallback (initialState [] []))).overlayRef = false := by
  have h := claimPostRevealAffordances
    (connectedCallback (initialState [] [])) rfl
  exact ⟨h.1, h.2.1, h.2.2.2.1⟩

/-- C10: render unconditionally rebuilds the prompt overlay and applies the
unrevealed hiding attributes of the current mode to the content wrapper
without consulting the revealed flag: re-running render on an instance
whose revealed flag is true re-creates the overlay and button, rebuilds
the button label, and re-hides the content, while revealed stays true; so
the irreversibility of the transition holds only within a single attached
lifetime. -/
theorem claimRenderIgnoresRevealed :
    ∀ s : CWState, s.revealed = true →
      (render s).overlayRef = true ∧
      (render s).buttonRef = true ∧
      (render s).revealed = true ∧
      (render s).wrapper = hidingTable false (hasA s.host "blur") ∧
      (render s).buttonLabel = some (composeRender
        (getA s.host "label-prefix") (getA s.host "type")
        (getA s.host "label-suffix")) := by
  intro s h
  refine ⟨render_overlayRef s, render_buttonRef s, ?_, render_wrapper s,
    render_buttonLabel s⟩
  rw [render_revealed]
  exact h

/-- C10 witness: re-rendering a concrete revealed instance re-creates the
overlay and re-applies the structural hiding attributes, with revealed
still true. -/
theorem claimRenderIgnoresRevealedWitness :
    (reveal (connectedCallback (initialState [] []))).revealed = true ∧
    (render (reveal (connectedCallback (initialState [] [])))).overlayRef
      = true ∧
    (render (reveal (connectedCallback (initialState [] [])))).wrapper
      = ⟨true, true, false⟩ ∧
    (render (reveal (connectedCallback (initialState [] [])))).revealed
      = true := by
  have h := claimRenderIgnoresRevealed
    (reveal (connectedCallback (initialState [] []))) (reveal_revealed _)
  exact ⟨reveal_revealed _, h.1, by rw [h.2.2.2.1]; rfl, h.2.2.1⟩

/-- C5: attribute-change notifications are side-effect-free unless the
widget is rendered and not yet revealed. Before initialization
(isRendered = false) every notification returns the state unchanged (the
model is a total function, so nothing throws). After reveal, the callback
returns the state unchanged, and a host attribute mutation updates only the
stored attribute value (the host list), never the prompt presentation or
the hiding attributes. -/
theorem claimNotificationGuards :
    ∀ (s : CWState) (n : String) (o v : Option String) (x : String),
      (s.isRendered = false → attributeChangedCallback s n o v = s) ∧
      (s.revealed = true →
        attributeChangedCallback s n o v = s ∧
        hostSetAttribute s n x = { s with host := setA s.host n x } ∧
        getA (hostSetAttribute s n x).host n = some x ∧
        hostRemoveAttribute s n = { s with host := removeA s.host n }) := by
  intro s n o v x
  refine ⟨acbOfNotRendered s n o v, ?_⟩
  intro hr
  refine ⟨acbOfRevealed s n o v hr, ?_,
    getA_hostSetAttribute_self s n x, ?_⟩
  · unfold hostSetAttribute
    split <;> simp_all [acbOfRevealed]
  · unfold hostRemoveAttribute
    cases hg : getA s.host n
    · rw [removeA_of_absent _ _ hg]
    · (repeat' split) <;> simp_all [acbOfRevealed]

/-- C5 witness: a notification on a freshly constructed (not yet rendered)
instance is ignored, and setting the type attribute on a concrete revealed
instance stores the value without touching the presentation. -/
theorem claimNotificationGuardsWitness :
    attributeChangedCallback (initialState [] []) "type" none (some "x")
      = initialState [] [] ∧
    hostSetAttribute (reveal (connectedCallback (initialState [] [])))
        "type" "x" =
      { reveal (connectedCallback (initialState [] [])) with
        host := setA (reveal (connectedCallback
          (initialState [] []))).host "type" "x" } := by
  refine ⟨?_, ?_⟩
  · exact (claimNotificationGuards (initialState [] []) "type" none
      (some "x") "x").1 rfl
  · exact ((claimNotificationGuards
      (reveal (connectedCallback (initialState [] []))) "type" none
      (some "x") "x").2 (reveal_revealed _)).2.1

/-- C6: a configuration value v assigned as a plain own property before
upgrade is detected, removed and re-applied through the accessor: after
upgradeProperty the shadowing own property is gone, the property getter
returns v and the backing attribute holds v; after the full
connectedCallback initialization the attribute still holds v; running the
upgrade a second time for the same key is a no-op, as is running it when
no own property shadows the accessor. -/
theorem claimUpgradePreservesEarlyValue :
    ∀ (k : ConfigKey) (s : CWState) (v : String),
      (ownProp k s = some v →
        propGet k (upgradeProperty k s) = some v ∧
        getA (upgradeProperty k s).host (attrName k) = some v ∧
        ownProp k (upgradeProperty k s) = none ∧
        getA (connectedCallback s).host (attrName k) = some v) ∧
      upgradeProperty k (upgradeProperty k s) = upgradeProperty k s ∧
      (ownProp k s = none → upgradeProperty k s = s) := by
  intro k s v
  refine ⟨?_, upgradeProperty_upgradeProperty k s, upgradeProperty_noop k s⟩
  intro h
  exact ⟨upgradeProperty_getA_self k s v h, upgradeProperty_getA_self k s v h,
    ownProp_upgradeProperty k s, connected_getA k s v h⟩

/-- C6 witness: a detached instance with the plain own property
type = early-value, once attached and initialized, serializes early-value
into the type attribute. -/
theorem claimUpgradePreservesEarlyValueWitness :
    ownProp .type { initialState [] [] with ownType := some "early-value" }
      = some "early-value" ∧
    getA (connectedCallback { initialState [] [] with
      ownType := some "early-value" }).host "type" = some "early-value" ∧
    upgradeProperty .type (upgradeProperty .type { initialState [] [] with
      ownType := some "early-value" }) =
      upgradeProperty .type { initialState [] [] with
        ownType := some "early-value" } := by
  refine ⟨rfl, ?_, ?_⟩
  · exact ((claimUpgradePreservesEarlyValue .type { initialState [] [] with
      ownType := some "early-value" } "early-value").1 rfl).2.2.2
  · exact (claimUpgradePreservesEarlyValue .type { initialState [] [] with
      ownType := some "early-value" } "early-value").2.1

/-- C4 counterexample: the fragment formula the claim states (nullish ??
defaulting) disagrees with the code on concrete inputs. With every input
absent, updateWarningMessage omits the suffix fragment entirely while the
claimed formula yields Click to reveal; with an empty-string prefix
(attribute present but empty), both code paths render the default
Content Warning while the claimed formula yields the empty string. -/
theorem claimLabelComposerCounterexample :
    composeUpdate none none none ≠ composeSpecFormula none none none ∧
    (composeUpdate none none none).suffixText = none ∧
    (composeSpecFormula none none none).suffixText
      = some "Click to reveal" ∧
    composeRender (some "") none none ≠ composeSpecFormula (some "") none
      none ∧
    (composeRender (some "") none none).prefixText = "Content Warning" ∧
    (composeSpecFormula (some "") none none).prefixText = "" := by
  refine ⟨?_, rfl, rfl, ?_, rfl, rfl⟩
  · intro h
    have := congrArg LabelParts.suffixText h
    simp [composeUpdate, composeSpecFormula, jsOr] at this
  · intro h
    have := congrArg LabelParts.prefixText h
    simp [composeRender, composeSpecFormula, jsOr] at this

/-- C4 amended: the code defaults with JavaScript falsy (||) semantics, not
nullish (??): prefixText is Content Warning whenever prefix is absent or
empty, and otherwise prefix; typeText is content whenever type is absent or
empty, and otherwise type. The suffix fragment differs between the two code
paths: at initial render it is omitted exactly when suffix is the literal
string false and otherwise defaults to Click to reveal when absent or
empty; on later label updates (updateWarningMessage) it is omitted both
when suffix is the literal false and when suffix is absent. An unconfigured
instance's initial prompt shows the three fragments Content Warning,
content, Click to reveal, with the structural hiding attributes on the
wrapper and an empty announcement region. -/
theorem claimLabelComposerAmended :
    ∀ (lp ty ls : Option String) (x : String) (ns : List Node),
      ((lp = none ∨ lp = some "") →
        (composeRender lp ty ls).prefixText = "Content Warning" ∧
        (composeUpdate lp ty ls).prefixText = "Content Warning") ∧
      (¬ x = "" →
        (composeRender (some x) ty ls).prefixText = x ∧
        (composeUpdate (some x) ty ls).prefixText = x) ∧
      ((ty = none ∨ ty = some "") →
        (composeRender lp ty ls).typeText = "content" ∧
        (composeUpdate lp ty ls).typeText = "content") ∧
      (¬ x = "" →
        (composeRender lp (some x) ls).typeText = x ∧
        (composeUpdate lp (some x) ls).typeText = x) ∧
      (composeRender lp ty (some "false")).suffixText = none ∧
      (composeUpdate lp ty (some "false")).suffixText = none ∧
      ((ls = none ∨ ls = some "") →
        (composeRender lp ty ls).suffixText = some "Click to reveal") ∧
      (composeUpdate lp ty none).suffixText = none ∧
      (¬ x = "" → ¬ x = "false" →
        (composeRender lp ty (some x)).suffixText = some x ∧
        (composeUpdate lp ty (some x)).suffixText = some x) ∧
      (connectedCallback (initialState [] ns)).buttonLabel =
        some ⟨"Content Warning", "content", some "Click to reveal"⟩ ∧
      (connectedCallback (initialState [] ns)).wrapper
        = ⟨true, true, false⟩ ∧
      (connectedCallback (initialState [] ns)).announcement = [] := by
  intro lp ty ls x ns
  refine ⟨?_, ?_, ?_, ?_, ?_, ?_, ?_, ?_, ?_, rfl, rfl, rfl⟩
  · rintro (h | h) <;> subst h <;> exact ⟨rfl, rfl⟩
  · intro h
    constructor <;> simp [composeRender, composeUpdate, jsOr, h]
  · rintro (h | h) <;> subst h <;> exact ⟨rfl, rfl⟩
  · intro h
    constructor <;> simp [composeRender, composeUpdate, jsOr, h]
  · rfl
  · rfl
  · rintro (h | h) <;> subst h <;> rfl
  · rfl
  · intro h1 h2
    constructor <;> simp [composeRender, composeUpdate, jsOr, h1, h2]

/-- C4 amended witness: concrete nonempty, non-sentinel inputs pass through
unchanged. -/
theorem claimLabelComposerAmendedWitness :
    (composeRender (some "Trigger") (some "violence") (some "Show")) =
      ⟨"Trigger", "violence", some "Show"⟩ ∧
    (composeUpdate none none none).suffixText = none := by
  have h := claimLabelComposerAmended (some "Trigger") (some "violence")
    (some "Show") "x" []
  refine ⟨?_, h.2.2.2.2.2.2.2.1⟩
  decide

/-- C7 counterexample: the announcement region is not retained under every
operation of the widget after reveal. On a concrete instance revealed with
a slotted paragraph element (so the region holds a clone of that element,
as collected by assignedElements), re-running render rebuilds the shadow
DOM and leaves the announcement region empty while the instance is still
revealed. -/
theorem claimAnnouncementRetentionCounterexample :
    (handleClick (connectedCallback (initialState []
        [Node.elem "p" [Node.text "sensitive"]]))).announcement =
      [Node.elem "p" [Node.text "sensitive"]] ∧
    (handleClick (connectedCallback (initialState []
        [Node.elem "p" [Node.text "sensitive"]]))).revealed = true ∧
    (render (handleClick (connectedCallback (initialState []
        [Node.elem "p" [Node.text "sensitive"]])))).announcement = [] ∧
    (render (handleClick (connectedCallback (initialState []
        [Node.elem "p" [Node.text "sensitive"]])))).revealed = true := by
  exact ⟨rfl, rfl, render_announcement _, rfl⟩

/-- C7 amended: the announcement region exists from the initial render and
is empty in every reachable unrevealed state; the reveal transition fills
it with a structural deep clone of every element assigned to the slot
(assignedElements, so bare text nodes are excluded; cloning is the
structural identity on the tree, preserving nested markup); and under
every external operation of one attached lifetime (attribute mutations,
property assignments, clicks, key events) its content is retained
unchanged after reveal. Only a re-run of render itself (on re-attachment)
rebuilds the region empty. -/
theorem claimAnnouncementLifecycleAmended :
    ∀ (a : AttrList) (ns : List Node) (s : CWState) (ops : List Op),
      (render s).announcement = [] ∧
      (render s).announcementRef = true ∧
      ((run (connectedCallback (initialState a ns)) ops).revealed = false →
        (run (connectedCallback (initialState a ns)) ops).announcement
          = []) ∧
      (s.revealed = false → s.announcementRef = true → s.slotRef = true →
        s.wrapperRef = true →
        (handleClick s).announcement = assignedElements s.slotted ∧
        cloneNodes (assignedElements s.slotted)
          = assignedElements s.slotted) ∧
      (s.revealed = true → (run s ops).announcement = s.announcement) := by
  intro a ns s ops
  refine ⟨render_announcement s, render_announcementRef s, ?_, ?_, ?_⟩
  · intro hr
    exact ((inv_run _ ops (inv_connected a ns)).2.2.2.2.2.1 hr).2
  · intro hr h1 h2 _
    rw [handleClick_of_unrevealed s hr, reveal_announcement s h1 h2]
    exact ⟨cloneNodes_eq _, cloneNodes_eq _⟩
  · intro hr
    rw [run_of_revealed s ops hr]

/-- C7 amended witness: on a concrete instance, the rendered region starts
empty, reveal fills it with the clone of the slotted element, and a
subsequent attribute change leaves it intact. -/
theorem claimAnnouncementLifecycleAmendedWitness :
    (connectedCallback (initialState [] [Node.elem "p"
      [Node.text "secret"]])).announcement = [] ∧
    (handleClick (connectedCallback (initialState []
      [Node.elem "p" [Node.text "secret"]]))).announcement =
      [Node.elem "p" [Node.text "secret"]] ∧
    (run (handleClick (connectedCallback (initialState []
        [Node.elem "p" [Node.text "secret"]])))
      [.setAttr "type" "x"]).announcement =
      [Node.elem "p" [Node.text "secret"]] := by
  have h := claimAnnouncementLifecycleAmended []
    [Node.elem "p" [Node.text "secret"]]
    (connectedCallback (initialState [] [Node.elem "p" [Node.text "secret"]]))
    [.setAttr "type" "x"]
  refine ⟨rfl, ?_, ?_⟩
  · exact (h.2.2.2.1 rfl rfl rfl rfl).1
  · have h2 := claimAnnouncementLifecycleAmended []
      [Node.elem "p" [Node.text "secret"]]
      (handleClick (connectedCallback (initialState []
        [Node.elem "p" [Node.text "secret"]])))
      [.setAttr "type" "x"]
    rw [h2.2.2.2.2 rfl]
    exact (h.2.2.2.1 rfl rfl rfl rfl).1

end ContentWarning
